import Mathlib

/-!
Verification of the status-aggregate and remote-status-update core of the
clickhouse-operator repository.

The embedding covers:
  - `pkg/apis/clickhouse.altinity.com/v1/interface.go`: the `Status` struct, its
    lock-protected mutators/accessors, and the `CopyFrom` merge protocol;
  - `pkg/apis/common/types/list.go` (package `kube` part): `StatusUpdate` and
    `doUpdateCRStatus`, the retrying get-merge-update loop against the store.

Go's `*Status` (a possibly-nil pointer receiver) is embedded as `Option Status`;
the `Ptr` namespace holds the pointer-level methods (which mirror the
`doWithWriteLock` / `get...WithReadLock` helpers of the source), while
`Status.<name>` holds the body each method executes under the lock.  Locking is
a no-op in this sequential model; the lock helpers' nil-receiver short-circuit
behaviour is what they contribute here.

Go slices are embedded as `List`; the only place the source distinguishes a nil
slice from an empty one is the `s.FQDNs == nil` test in `SyncHostTablesCreated`,
so `FQDNs` is embedded as `Option (List String)` while all other slice fields
are plain lists (for them the source only ever uses `len`/`append`, which do
not distinguish nil from empty).
-/

namespace ClickHouseOperator

/-- Opaque carrier for a normalized `ClickHouseInstallation` document; the
status code only stores and moves references to it, never inspects it. -/
structure ClickHouseInstallation where
  id : Nat
deriving DecidableEq, Repr

/-- Carrier for `*TemplateRef` entries of the used-templates provenance list. -/
structure TemplateRef where
  name : String
  inNamespace : String
  useType : String
deriving DecidableEq, Repr

/-- Constant `maxActions` from interface.go. -/
def maxActions : Nat := 10

/-- Constant `maxErrors` from interface.go. -/
def maxErrors : Nat := 10

/-- Constant `maxTaskIDs` from interface.go. -/
def maxTaskIDs : Nat := 10

/-- Constant `StatusInProgress` from interface.go. -/
def StatusInProgress : String := "InProgress"

/-- Constant `StatusCompleted` from interface.go. -/
def StatusCompleted : String := "Completed"

/-- Constant `StatusAborted` from interface.go. -/
def StatusAborted : String := "Aborted"

/-- Constant `StatusTerminating` from interface.go. -/
def StatusTerminating : String := "Terminating"

/-- Modelled from the spec: the `version` package (not under src/) provides the
build-hardcoded operator version string ("Identity/build ... write-once per
`Fill`"). -/
def versionVersion : String := "chop-version"

/-- Modelled from the spec: build-hardcoded git commit of the operator. -/
def versionGitSHA : String := "chop-commit"

/-- Modelled from the spec: build-hardcoded build date of the operator. -/
def versionBuiltAt : String := "chop-date"

/-- The `Status` struct of interface.go (the `sync.RWMutex` field is omitted:
locking has no observable effect in this sequential embedding). -/
structure Status where
  chopVersion : String := ""
  chopCommit : String := ""
  chopDate : String := ""
  chopIP : String := ""
  clustersCount : Int := 0
  shardsCount : Int := 0
  replicasCount : Int := 0
  hostsCount : Int := 0
  status : String := ""
  taskID : String := ""
  taskIDsStarted : List String := []
  taskIDsCompleted : List String := []
  action : String := ""
  actions : List String := []
  error : String := ""
  errors : List String := []
  hostsUpdatedCount : Int := 0
  hostsAddedCount : Int := 0
  hostsUnchangedCount : Int := 0
  hostsFailedCount : Int := 0
  hostsCompletedCount : Int := 0
  hostsDeletedCount : Int := 0
  hostsDeleteCount : Int := 0
  pods : List String := []
  podIPs : List String := []
  fqdns : Option (List String) := none
  endpoint : String := ""
  normalizedCR : Option ClickHouseInstallation := none
  normalizedCRCompleted : Option ClickHouseInstallation := none
  hostsWithTablesCreated : List String := []
  usedTemplates : List TemplateRef := []
deriving DecidableEq, Repr

/-- The zero value of `Status` (every Go field at its zero value). -/
def Status.empty : Status := {}

/-- The `FillStatusParams` struct of interface.go. -/
structure FillStatusParams where
  chopIP : String := ""
  clustersCount : Int := 0
  shardsCount : Int := 0
  hostsCount : Int := 0
  taskID : String := ""
  hostsUpdatedCount : Int := 0
  hostsAddedCount : Int := 0
  hostsUnchangedCount : Int := 0
  hostsCompletedCount : Int := 0
  hostsDeleteCount : Int := 0
  hostsDeletedCount : Int := 0
  pods : List String := []
  fqdns : Option (List String) := none
  endpoint : String := ""
  normalizedCR : Option ClickHouseInstallation := none
deriving Repr

/-- Modelled from the spec: `types.CopyStatusOptions` (declared outside src/) is
"a set of independent boolean switches (not mutually exclusive) selecting which
field groups a `CopyFrom` operation transfers" — the switch names are those used
by `CopyFrom` in interface.go. -/
structure CopyStatusOptions where
  inheritableFields : Bool := false
  actions : Bool := false
  errors : Bool := false
  mainFields : Bool := false
  normalized : Bool := false
  wholeStatus : Bool := false
deriving DecidableEq, Repr

/-- Modelled from the spec: `types.UpdateStatusOptions` (declared outside src/)
bundles the copy switches with the `TolerateAbsence` flag used by
`doUpdateCRStatus`. -/
structure UpdateStatusOptions where
  copyStatusOptions : CopyStatusOptions := {}
  tolerateAbsence : Bool := false
deriving Repr

/-- Modelled from the spec: `util.InArray` (not under src/) — membership of a
string in a list ("deduplicated" idempotency-set check). -/
def inArray (x : String) (l : List String) : Bool := l.contains x

/-- Modelled from the spec: `util.IntersectStringArrays` (not under src/) —
"the intersection of its current contents with the live FQDN list": the
elements of `a` that also occur in `b`. -/
def intersectStringArrays (a b : List String) : List String :=
  a.filter fun x => b.contains x

/-- Modelled from the spec: `util.MergeStringArrays` (not under src/) — §4.2:
"destination and source histories are unioned (duplicates collapsed)". -/
def mergeStringArrays (a b : List String) : List String :=
  (a ++ b).dedup

/-- Model of `sort.Sort(sort.Reverse(sort.StringSlice(...)))`: the input sorted
in descending (reverse-lexicographic) string order.  Strings form a linear
order, so the sorted output is uniquely determined and the choice of sorting
algorithm is immaterial. -/
def sortReverseStringSlice (l : List String) : List String :=
  List.insertionSort (fun a b => b ≤ a) l

/-- Helper `doWithWriteLock` of interface.go: run the mutator body on a non-nil
receiver, no-op on nil. -/
def doWithWriteLock (s : Option Status) (f : Status → Status) : Option Status :=
  match s with
  | none => none
  | some st => some (f st)

/-- Helper `getIntWithReadLock` of interface.go: zero on a nil receiver. -/
def getIntWithReadLock (s : Option Status) (f : Status → Int) : Int :=
  match s with
  | none => 0
  | some st => f st

/-- Helper `getStringWithReadLock` of interface.go: empty string on nil. -/
def getStringWithReadLock (s : Option Status) (f : Status → String) : String :=
  match s with
  | none => ""
  | some st => f st

/-- Helper `getInstallationWithReadLock` of interface.go: nil pointer on nil. -/
def getInstallationWithReadLock (s : Option Status)
    (f : Status → Option ClickHouseInstallation) : Option ClickHouseInstallation :=
  match s with
  | none => none
  | some st => f st

/-- Helper `getStringArrWithReadLock` of interface.go: a fresh empty array
(`make([]string, 0, 0)`) on a nil receiver. -/
def getStringArrWithReadLock (s : Option Status) (f : Status → List String) : List String :=
  match s with
  | none => []
  | some st => f st

/-- Helper `trimActionsNoSync` of interface.go. -/
def trimActionsNoSync (s : Status) : Status :=
  if s.actions.length > maxActions then { s with actions := s.actions.take maxActions } else s

/-- Helper `mergeActionsNoSync` of interface.go: merge `from`'s actions into
`s`'s, sort descending, trim to the cap. -/
def mergeActionsNoSync (s : Status) (f : Status) : Status :=
  trimActionsNoSync
    { s with actions := sortReverseStringSlice (mergeStringArrays s.actions f.actions) }

/-- Helper `pushTaskIDStartedNoSync` of interface.go: prepend `s.TaskID` to the
started history and truncate to `maxTaskIDs`. -/
def pushTaskIDStartedNoSync (s : Status) : Status :=
  if (s.taskID :: s.taskIDsStarted).length > maxTaskIDs then
    { s with taskIDsStarted := (s.taskID :: s.taskIDsStarted).take maxTaskIDs }
  else { s with taskIDsStarted := s.taskID :: s.taskIDsStarted }

/-- Helper `pushTaskIDCompletedNoSync` of interface.go. -/
def pushTaskIDCompletedNoSync (s : Status) : Status :=
  if (s.taskID :: s.taskIDsCompleted).length > maxTaskIDs then
    { s with taskIDsCompleted := (s.taskID :: s.taskIDsCompleted).take maxTaskIDs }
  else { s with taskIDsCompleted := s.taskID :: s.taskIDsCompleted }

/-- Body of `Fill` (interface.go) as run under the write lock. -/
def Status.fill (s : Status) (params : FillStatusParams) : Status :=
  { s with
    chopVersion := versionVersion
    chopCommit := versionGitSHA
    chopDate := versionBuiltAt
    chopIP := params.chopIP
    clustersCount := params.clustersCount
    shardsCount := params.shardsCount
    hostsCount := params.hostsCount
    taskID := params.taskID
    hostsUpdatedCount := params.hostsUpdatedCount
    hostsAddedCount := params.hostsAddedCount
    hostsUnchangedCount := params.hostsUnchangedCount
    hostsCompletedCount := params.hostsCompletedCount
    hostsDeleteCount := params.hostsDeleteCount
    hostsDeletedCount := params.hostsDeletedCount
    pods := params.pods
    fqdns := params.fqdns
    endpoint := params.endpoint
    normalizedCR := params.normalizedCR }

/-- Body of `SetError` (interface.go). -/
def Status.setError (s : Status) (err : String) : Status :=
  { s with error := err }

/-- Body of `SetAndPushError` (interface.go). -/
def Status.setAndPushError (s : Status) (err : String) : Status :=
  let s := { s with error := err, errors := err :: s.errors }
  if s.errors.length > maxErrors then { s with errors := s.errors.take maxErrors } else s

/-- Body of `PushHostTablesCreated` (interface.go). -/
def Status.pushHostTablesCreated (s : Status) (host : String) : Status :=
  if inArray host s.hostsWithTablesCreated then s
  else { s with hostsWithTablesCreated := s.hostsWithTablesCreated ++ [host] }

/-- Body of `SyncHostTablesCreated` (interface.go): no-op while `FQDNs == nil`,
otherwise intersect the table-created set with the FQDN list. -/
def Status.syncHostTablesCreated (s : Status) : Status :=
  match s.fqdns with
  | none => s
  | some fq =>
      { s with hostsWithTablesCreated := intersectStringArrays s.hostsWithTablesCreated fq }

/-- Body of `PushUsedTemplate` (interface.go). -/
def Status.pushUsedTemplate (s : Status) (templateRef : TemplateRef) : Status :=
  { s with usedTemplates := s.usedTemplates ++ [templateRef] }

/-- Body of `SetAction` (interface.go). -/
def Status.setAction (s : Status) (action : String) : Status :=
  { s with action := action }

/-- Body of `PushAction` (interface.go): prepend and trim to `maxActions`. -/
def Status.pushAction (s : Status) (action : String) : Status :=
  trimActionsNoSync { s with actions := action :: s.actions }

/-- Body of `PushError` (interface.go): prepend and trim to `maxErrors`. -/
def Status.pushError (s : Status) (error : String) : Status :=
  let s := { s with errors := error :: s.errors }
  if s.errors.length > maxErrors then { s with errors := s.errors.take maxErrors } else s

/-- Body of `SetPodIPs` (interface.go). -/
def Status.setPodIPs (s : Status) (podIPs : List String) : Status :=
  { s with podIPs := podIPs }

/-- Body of `HostDeleted` (interface.go). -/
def Status.hostDeleted (s : Status) : Status :=
  { s with hostsDeletedCount := s.hostsDeletedCount + 1 }

/-- Body of `HostUpdated` (interface.go). -/
def Status.hostUpdated (s : Status) : Status :=
  { s with hostsUpdatedCount := s.hostsUpdatedCount + 1 }

/-- Body of `HostAdded` (interface.go). -/
def Status.hostAdded (s : Status) : Status :=
  { s with hostsAddedCount := s.hostsAddedCount + 1 }

/-- Body of `HostUnchanged` (interface.go). -/
def Status.hostUnchanged (s : Status) : Status :=
  { s with hostsUnchangedCount := s.hostsUnchangedCount + 1 }

/-- Body of `HostFailed` (interface.go). -/
def Status.hostFailed (s : Status) : Status :=
  { s with hostsFailedCount := s.hostsFailedCount + 1 }

/-- Body of `HostCompleted` (interface.go). -/
def Status.hostCompleted (s : Status) : Status :=
  { s with hostsCompletedCount := s.hostsCompletedCount + 1 }

/-- Body of `ReconcileStart` (interface.go).  Note: the source resets the
updated/added/unchanged/completed/deleted counters and sets `HostsDeleteCount`
to the argument; `HostsFailedCount` is not touched.  (The body's own `s == nil`
check is unreachable under `doWithWriteLock` and is dropped here.) -/
def Status.reconcileStart (s : Status) (deleteHostsCount : Int) : Status :=
  pushTaskIDStartedNoSync
    { s with
      status := StatusInProgress
      hostsUpdatedCount := 0
      hostsAddedCount := 0
      hostsUnchangedCount := 0
      hostsCompletedCount := 0
      hostsDeletedCount := 0
      hostsDeleteCount := deleteHostsCount }

/-- Body of `ReconcileComplete` (interface.go). -/
def Status.reconcileComplete (s : Status) : Status :=
  pushTaskIDCompletedNoSync { s with status := StatusCompleted, action := "" }

/-- Body of `ReconcileAbort` (interface.go). -/
def Status.reconcileAbort (s : Status) : Status :=
  pushTaskIDCompletedNoSync { s with status := StatusAborted, action := "" }

/-- Body of `DeleteStart` (interface.go). -/
def Status.deleteStart (s : Status) : Status :=
  pushTaskIDStartedNoSync
    { s with
      status := StatusTerminating
      hostsUpdatedCount := 0
      hostsAddedCount := 0
      hostsUnchangedCount := 0
      hostsCompletedCount := 0
      hostsDeletedCount := 0
      hostsDeleteCount := 0 }

/-- Body of `CopyFrom` (interface.go) with both receiver and source non-nil:
the switch blocks are applied in source order (inheritable, actions, errors,
main-fields, normalized, whole-status), each block's assignments in source
order. -/
def Status.copyFrom (s : Status) (f : Status) (opts : CopyStatusOptions) : Status :=
  let s1 :=
    if opts.inheritableFields then
      { s with
        taskIDsStarted := f.taskIDsStarted
        taskIDsCompleted := f.taskIDsCompleted
        actions := f.actions
        errors := f.errors
        hostsWithTablesCreated := f.hostsWithTablesCreated }
    else s
  let s2 :=
    if opts.actions then
      -- `s.HostsWithTablesCreated = nil` followed by a guarded append of
      -- `from`'s entries leaves exactly `from`'s list (nil and empty coincide
      -- in the `List` embedding); likewise for `UsedTemplates`.
      let sa := mergeActionsNoSync { s1 with action := f.action } f
      { sa with
        hostsWithTablesCreated := f.hostsWithTablesCreated
        usedTemplates := f.usedTemplates }
    else s1
  let s3 :=
    if opts.errors then
      { s2 with
        error := f.error
        errors := sortReverseStringSlice (mergeStringArrays s2.errors f.errors) }
    else s2
  let s4 :=
    if opts.mainFields then
      let sm :=
        { s3 with
          chopVersion := f.chopVersion
          chopCommit := f.chopCommit
          chopDate := f.chopDate
          chopIP := f.chopIP
          clustersCount := f.clustersCount
          shardsCount := f.shardsCount
          replicasCount := f.replicasCount
          hostsCount := f.hostsCount
          status := f.status
          taskID := f.taskID
          taskIDsStarted := f.taskIDsStarted
          taskIDsCompleted := f.taskIDsCompleted
          action := f.action }
      let sm := mergeActionsNoSync sm f
      { sm with
        error := f.error
        errors := f.errors
        hostsUpdatedCount := f.hostsUpdatedCount
        hostsAddedCount := f.hostsAddedCount
        hostsUnchangedCount := f.hostsUnchangedCount
        hostsCompletedCount := f.hostsCompletedCount
        hostsDeletedCount := f.hostsDeletedCount
        hostsDeleteCount := f.hostsDeleteCount
        pods := f.pods
        podIPs := f.podIPs
        fqdns := f.fqdns
        endpoint := f.endpoint
        normalizedCR := f.normalizedCR }
    else s3
  let s5 := if opts.normalized then { s4 with normalizedCR := f.normalizedCR } else s4
  let s6 :=
    if opts.wholeStatus then
      let sw :=
        { s5 with
          chopVersion := f.chopVersion
          chopCommit := f.chopCommit
          chopDate := f.chopDate
          chopIP := f.chopIP
          clustersCount := f.clustersCount
          shardsCount := f.shardsCount
          replicasCount := f.replicasCount
          hostsCount := f.hostsCount
          status := f.status
          taskID := f.taskID
          taskIDsStarted := f.taskIDsStarted
          taskIDsCompleted := f.taskIDsCompleted
          action := f.action }
      let sw := mergeActionsNoSync sw f
      { sw with
        error := f.error
        errors := f.errors
        hostsUpdatedCount := f.hostsUpdatedCount
        hostsAddedCount := f.hostsAddedCount
        hostsUnchangedCount := f.hostsUnchangedCount
        hostsCompletedCount := f.hostsCompletedCount
        hostsDeletedCount := f.hostsDeletedCount
        hostsDeleteCount := f.hostsDeleteCount
        pods := f.pods
        podIPs := f.podIPs
        fqdns := f.fqdns
        endpoint := f.endpoint
        normalizedCR := f.normalizedCR
        normalizedCRCompleted := f.normalizedCRCompleted }
    else s5
  s6

/-- Body of `ClearNormalizedCR` (interface.go). -/
def Status.clearNormalizedCR (s : Status) : Status :=
  { s with normalizedCR := none }

/-- Body of `SetNormalizedCompletedFromCurrentNormalized` (interface.go). -/
def Status.setNormalizedCompletedFromCurrentNormalized (s : Status) : Status :=
  { s with normalizedCRCompleted := s.normalizedCR }

namespace Ptr

/-- `Fill` on a possibly-nil `*Status`. -/
def fill (s : Option Status) (params : FillStatusParams) : Option Status :=
  doWithWriteLock s fun st => st.fill params

/-- `SetError` on a possibly-nil `*Status`. -/
def setError (s : Option Status) (err : String) : Option Status :=
  doWithWriteLock s fun st => st.setError err

/-- `SetAndPushError` on a possibly-nil `*Status`. -/
def setAndPushError (s : Option Status) (err : String) : Option Status :=
  doWithWriteLock s fun st => st.setAndPushError err

/-- `PushHostTablesCreated` on a possibly-nil `*Status`. -/
def pushHostTablesCreated (s : Option Status) (host : String) : Option Status :=
  doWithWriteLock s fun st => st.pushHostTablesCreated host

/-- `SyncHostTablesCreated` on a possibly-nil `*Status`. -/
def syncHostTablesCreated (s : Option Status) : Option Status :=
  doWithWriteLock s fun st => st.syncHostTablesCreated

/-- `PushUsedTemplate` on a possibly-nil `*Status`. -/
def pushUsedTemplate (s : Option Status) (templateRef : TemplateRef) : Option Status :=
  doWithWriteLock s fun st => st.pushUsedTemplate templateRef

/-- `GetUsedTemplatesCount` on a possibly-nil `*Status`. -/
def getUsedTemplatesCount (s : Option Status) : Int :=
  getIntWithReadLock s fun st => (st.usedTemplates.length : Int)

/-- `SetAction` on a possibly-nil `*Status`. -/
def setAction (s : Option Status) (action : String) : Option Status :=
  doWithWriteLock s fun st => st.setAction action

/-- `PushAction` on a possibly-nil `*Status`. -/
def pushAction (s : Option Status) (action : String) : Option Status :=
  doWithWriteLock s fun st => st.pushAction action

/-- `PushError` on a possibly-nil `*Status`. -/
def pushError (s : Option Status) (error : String) : Option Status :=
  doWithWriteLock s fun st => st.pushError error

/-- `SetPodIPs` on a possibly-nil `*Status`. -/
def setPodIPs (s : Option Status) (podIPs : List String) : Option Status :=
  doWithWriteLock s fun st => st.setPodIPs podIPs

/-- `HostDeleted` on a possibly-nil `*Status`. -/
def hostDeleted (s : Option Status) : Option Status :=
  doWithWriteLock s fun st => st.hostDeleted

/-- `HostUpdated` on a possibly-nil `*Status`. -/
def hostUpdated (s : Option Status) : Option Status :=
  doWithWriteLock s fun st => st.hostUpdated

/-- `HostAdded` on a possibly-nil `*Status`. -/
def hostAdded (s : Option Status) : Option Status :=
  doWithWriteLock s fun st => st.hostAdded

/-- `HostUnchanged` on a possibly-nil `*Status`. -/
def hostUnchanged (s : Option Status) : Option Status :=
  doWithWriteLock s fun st => st.hostUnchanged

/-- `HostFailed` on a possibly-nil `*Status`. -/
def hostFailed (s : Option Status) : Option Status :=
  doWithWriteLock s fun st => st.hostFailed

/-- `HostCompleted` on a possibly-nil `*Status`. -/
def hostCompleted (s : Option Status) : Option Status :=
  doWithWriteLock s fun st => st.hostCompleted

/-- `ReconcileStart` on a possibly-nil `*Status`. -/
def reconcileStart (s : Option Status) (deleteHostsCount : Int) : Option Status :=
  doWithWriteLock s fun st => st.reconcileStart deleteHostsCount

/-- `ReconcileComplete` on a possibly-nil `*Status`. -/
def reconcileComplete (s : Option Status) : Option Status :=
  doWithWriteLock s fun st => st.reconcileComplete

/-- `ReconcileAbort` on a possibly-nil `*Status`. -/
def reconcileAbort (s : Option Status) : Option Status :=
  doWithWriteLock s fun st => st.reconcileAbort

/-- `DeleteStart` on a possibly-nil `*Status`. -/
def deleteStart (s : Option Status) : Option Status :=
  doWithWriteLock s fun st => st.deleteStart

/-- `CopyFrom` on possibly-nil receiver and source: `doWithWriteLock` skips
everything on a nil receiver, the nested `doWithReadLock` skips the body on a
nil source (leaving the receiver unchanged). -/
def copyFrom (s : Option Status) (f : Option Status) (opts : CopyStatusOptions) :
    Option Status :=
  match s, f with
  | none, _ => none
  | some s', none => some s'
  | some s', some f' => some (s'.copyFrom f' opts)

/-- `ClearNormalizedCR` on a possibly-nil `*Status`. -/
def clearNormalizedCR (s : Option Status) : Option Status :=
  doWithWriteLock s fun st => st.clearNormalizedCR

/-- `SetNormalizedCompletedFromCurrentNormalized` on a possibly-nil `*Status`. -/
def setNormalizedCompletedFromCurrentNormalized (s : Option Status) : Option Status :=
  doWithWriteLock s fun st => st.setNormalizedCompletedFromCurrentNormalized

/-- `GetCHOpVersion` on a possibly-nil `*Status`. -/
def getCHOpVersion (s : Option Status) : String :=
  getStringWithReadLock s fun st => st.chopVersion

/-- `GetCHOpCommit` on a possibly-nil `*Status`. -/
def getCHOpCommit (s : Option Status) : String :=
  getStringWithReadLock s fun st => st.chopCommit

/-- `GetCHOpDate` on a possibly-nil `*Status`. -/
def getCHOpDate (s : Option Status) : String :=
  getStringWithReadLock s fun st => st.chopDate

/-- `GetCHOpIP` on a possibly-nil `*Status`. -/
def getCHOpIP (s : Option Status) : String :=
  getStringWithReadLock s fun st => st.chopIP

/-- `GetClustersCount` on a possibly-nil `*Status`. -/
def getClustersCount (s : Option Status) : Int :=
  getIntWithReadLock s fun st => st.clustersCount

/-- `GetShardsCount` on a possibly-nil `*Status`. -/
def getShardsCount (s : Option Status) : Int :=
  getIntWithReadLock s fun st => st.shardsCount

/-- `GetReplicasCount` on a possibly-nil `*Status`. -/
def getReplicasCount (s : Option Status) : Int :=
  getIntWithReadLock s fun st => st.replicasCount

/-- `GetHostsCount` on a possibly-nil `*Status`. -/
def getHostsCount (s : Option Status) : Int :=
  getIntWithReadLock s fun st => st.hostsCount

/-- `GetStatus` on a possibly-nil `*Status`. -/
def getStatus (s : Option Status) : String :=
  getStringWithReadLock s fun st => st.status

/-- `GetTaskID` on a possibly-nil `*Status`. -/
def getTaskID (s : Option Status) : String :=
  getStringWithReadLock s fun st => st.taskID

/-- `GetTaskIDsStarted` on a possibly-nil `*Status`. -/
def getTaskIDsStarted (s : Option Status) : List String :=
  getStringArrWithReadLock s fun st => st.taskIDsStarted

/-- `GetTaskIDsCompleted` on a possibly-nil `*Status`. -/
def getTaskIDsCompleted (s : Option Status) : List String :=
  getStringArrWithReadLock s fun st => st.taskIDsCompleted

/-- `GetAction` on a possibly-nil `*Status`. -/
def getAction (s : Option Status) : String :=
  getStringWithReadLock s fun st => st.action

/-- `GetActions` on a possibly-nil `*Status`. -/
def getActions (s : Option Status) : List String :=
  getStringArrWithReadLock s fun st => st.actions

/-- `GetError` on a possibly-nil `*Status`. -/
def getError (s : Option Status) : String :=
  getStringWithReadLock s fun st => st.error

/-- `GetErrors` on a possibly-nil `*Status`. -/
def getErrors (s : Option Status) : List String :=
  getStringArrWithReadLock s fun st => st.errors

/-- `GetHostsUpdatedCount` on a possibly-nil `*Status`. -/
def getHostsUpdatedCount (s : Option Status) : Int :=
  getIntWithReadLock s fun st => st.hostsUpdatedCount

/-- `GetHostsAddedCount` on a possibly-nil `*Status`. -/
def getHostsAddedCount (s : Option Status) : Int :=
  getIntWithReadLock s fun st => st.hostsAddedCount

/-- `GetHostsUnchangedCount` on a possibly-nil `*Status`. -/
def getHostsUnchangedCount (s : Option Status) : Int :=
  getIntWithReadLock s fun st => st.hostsUnchangedCount

/-- `GetHostsFailedCount` on a possibly-nil `*Status`. -/
def getHostsFailedCount (s : Option Status) : Int :=
  getIntWithReadLock s fun st => st.hostsFailedCount

/-- `GetHostsCompletedCount` on a possibly-nil `*Status`. -/
def getHostsCompletedCount (s : Option Status) : Int :=
  getIntWithReadLock s fun st => st.hostsCompletedCount

/-- `GetHostsDeletedCount` on a possibly-nil `*Status`. -/
def getHostsDeletedCount (s : Option Status) : Int :=
  getIntWithReadLock s fun st => st.hostsDeletedCount

/-- `GetHostsDeleteCount` on a possibly-nil `*Status`. -/
def getHostsDeleteCount (s : Option Status) : Int :=
  getIntWithReadLock s fun st => st.hostsDeleteCount

/-- `GetPods` on a possibly-nil `*Status`. -/
def getPods (s : Option Status) : List String :=
  getStringArrWithReadLock s fun st => st.pods

/-- `GetPodIPs` on a possibly-nil `*Status`. -/
def getPodIPs (s : Option Status) : List String :=
  getStringArrWithReadLock s fun st => st.podIPs

/-- `GetFQDNs` on a possibly-nil `*Status` (a nil `FQDNs` slice and an empty
one coincide in the `List` view of the getter's result). -/
def getFQDNs (s : Option Status) : List String :=
  getStringArrWithReadLock s fun st => st.fqdns.getD []

/-- `GetEndpoint` on a possibly-nil `*Status`. -/
def getEndpoint (s : Option Status) : String :=
  getStringWithReadLock s fun st => st.endpoint

/-- `GetNormalizedCR` on a possibly-nil `*Status`. -/
def getNormalizedCR (s : Option Status) : Option ClickHouseInstallation :=
  getInstallationWithReadLock s fun st => st.normalizedCR

/-- `GetNormalizedCRCompleted` on a possibly-nil `*Status`. -/
def getNormalizedCRCompleted (s : Option Status) : Option ClickHouseInstallation :=
  getInstallationWithReadLock s fun st => st.normalizedCRCompleted

/-- `GetHostsWithTablesCreated` on a possibly-nil `*Status`. -/
def getHostsWithTablesCreated (s : Option Status) : List String :=
  getStringArrWithReadLock s fun st => st.hostsWithTablesCreated

/-- `HasNormalizedCR` on a possibly-nil `*Status`. -/
def hasNormalizedCR (s : Option Status) : Bool :=
  (getNormalizedCR s).isSome

/-- `HasNormalizedCRCompleted` on a possibly-nil `*Status`. -/
def hasNormalizedCRCompleted (s : Option Status) : Bool :=
  (getNormalizedCRCompleted s).isSome

end Ptr

/-! ## RemoteSync: `StatusUpdate` / `doUpdateCRStatus` of list.go (package kube)

The store and the calling context are abstracted as an environment: for each
attempt it supplies the context-done flag observed at the start of
`doUpdateCRStatus`, the result of the first `Get`, the result of the status
`Update` write, and the result of the re-fetch.  The local resource (`chk`) is
threaded through the loop because a successful write propagates the store's new
`ResourceVersion` onto it. -/

/-- Error values returned by the store client (`error` in Go). -/
def GoErr := String
deriving instance DecidableEq, Repr for GoErr

/-- The `ClickHouseKeeperInstallation` object as far as the sync loop reads it:
its `ResourceVersion` token and its (possibly absent) `Status` sub-document. -/
structure KeeperCR where
  resourceVersion : String
  status : Option Status
deriving DecidableEq, Repr

/-- Result of `CR.Get` (list.go): the method returns either a non-nil object
with a nil error or a nil interface with a non-nil error — never a nil object
together with a nil error. -/
inductive GetResult where
  | found (cr : KeeperCR)
  | failed (e : GoErr)
deriving DecidableEq, Repr

/-- Modelled from the spec: `EnsureStatus` (not under src/) returns the
resource's status aggregate, creating an empty one if the resource has none
("created empty at resource-object construction"). -/
def ensureStatus (c : KeeperCR) : Status :=
  c.status.getD Status.empty

/-- Observable outcome of one `doUpdateCRStatus` call: a nil error, a non-nil
error, or a run-time panic (a nil-interface type assertion). -/
inductive Outcome where
  | ok
  | err (e : GoErr)
  | panicked
deriving DecidableEq, Repr

/-- Whether an outcome is a non-nil error. -/
def Outcome.isErr : Outcome → Bool
  | Outcome.err _ => true
  | _ => false

/-- Store/context behaviour observed by one `doUpdateCRStatus` call. -/
structure AttemptEnv where
  ctxDone : Bool
  get1 : GetResult
  writeErr : Option GoErr
  get2 : GetResult
deriving Repr

/-- `doUpdateCRStatus` (list.go).  Control flow of the source, in order:
  1. `util.IsContextDone(ctx)` → return nil;
  2. `_cur, err := c.Get(...)` followed immediately by the type assertion
     `cur := _cur.(*ClickHouseKeeperInstallation)` — when `Get` failed, `_cur`
     is a nil interface and the assertion panics **before** the
     `err != nil` / `opts.TolerateAbsence` branch is reached (that branch, and
     the `cur == nil` branch after it, are unreachable: `Get` never returns a
     nil object with a nil error);
  3. merge the local status into the fetched object via
     `cur.EnsureStatus().CopyFrom(chk.Status, opts.CopyStatusOptions)`;
  4. write; a write error is returned to the caller (to be retried);
  5. re-fetch (same panicking assertion on failure) and propagate a changed
     `ResourceVersion` onto the local object; return nil either way. -/
def doUpdateCRStatus (opts : UpdateStatusOptions) (chk : KeeperCR) (e : AttemptEnv) :
    Outcome × KeeperCR :=
  if e.ctxDone then (Outcome.ok, chk)
  else
    match e.get1 with
    | GetResult.failed _ => (Outcome.panicked, chk)
    | GetResult.found cur =>
        let merged := Ptr.copyFrom (some (ensureStatus cur)) chk.status opts.copyStatusOptions
        let _cur1 : KeeperCR := { cur with status := merged }
        match e.writeErr with
        | some werr => (Outcome.err werr, chk)
        | none =>
            match e.get2 with
            | GetResult.failed _ => (Outcome.panicked, chk)
            | GetResult.found cur2 =>
                if chk.resourceVersion ≠ cur2.resourceVersion then
                  (Outcome.ok, { chk with resourceVersion := cur2.resourceVersion })
                else (Outcome.ok, chk)

/-- The outcome of one attempt depends only on the environment, not on the
threaded local resource (the resource only influences the propagated
`ResourceVersion`). -/
def attemptOutcome (e : AttemptEnv) : Outcome :=
  if e.ctxDone then Outcome.ok
  else
    match e.get1 with
    | GetResult.failed _ => Outcome.panicked
    | GetResult.found _ =>
        match e.writeErr with
        | some werr => Outcome.err werr
        | none =>
            match e.get2 with
            | GetResult.failed _ => Outcome.panicked
            | GetResult.found _ => Outcome.ok

/-- Observable trace of one `StatusUpdate` call: the final outcome, the number
of `doUpdateCRStatus` invocations, and the number of 1-second sleeps. -/
structure SyncTrace where
  outcome : Outcome
  calls : Nat
  sleeps : Nat
deriving DecidableEq, Repr

/-- The retry loop of `StatusUpdate` (list.go):
`for retry, attempt := true, 1; retry; attempt++ { if attempt > 60 { retry = false } ... }`.
`remaining` counts the attempts for which `retry` stays `true` after the guard:
the loop enters with `attempt = 1, remaining = 60`, and the attempt executed
with `remaining = 0` (i.e. `attempt = 61`) is the final one — it still calls
`doUpdateCRStatus`, but a failure is returned instead of slept on.  A panic in
`doUpdateCRStatus` aborts the whole call. -/
def statusUpdateLoop (opts : UpdateStatusOptions) (env : Nat → AttemptEnv)
    (chk : KeeperCR) (attempt : Nat) (remaining : Nat) (calls sleeps : Nat) :
    SyncTrace × KeeperCR :=
  match doUpdateCRStatus opts chk (env attempt) with
  | (Outcome.ok, chk') => (⟨Outcome.ok, calls + 1, sleeps⟩, chk')
  | (Outcome.panicked, chk') => (⟨Outcome.panicked, calls + 1, sleeps⟩, chk')
  | (Outcome.err e, chk') =>
      match remaining with
      | 0 => (⟨Outcome.err e, calls + 1, sleeps⟩, chk')
      | r + 1 =>
          statusUpdateLoop opts env chk' (attempt + 1) r (calls + 1) (sleeps + 1)

/-- `StatusUpdate` (list.go): an already-done context short-circuits to success
before the loop; otherwise the retry loop runs from attempt 1 with 60 further
retried attempts allowed (matching the `attempt > 60` guard). -/
def statusUpdate (opts : UpdateStatusOptions) (ctxDoneAtEntry : Bool)
    (env : Nat → AttemptEnv) (chk : KeeperCR) : SyncTrace × KeeperCR :=
  if ctxDoneAtEntry then (⟨Outcome.ok, 0, 0⟩, chk)
  else statusUpdateLoop opts env chk 1 60 0 0

/-! ## Derived operations and concrete fixtures -/

/-- A sequence of `PushAction` calls applied in order. -/
def pushActions (s : Status) (as : List String) : Status :=
  as.foldl Status.pushAction s

/-- Twelve actions, two more than the history cap. -/
def exActions12 : List String :=
  ["a01", "a02", "a03", "a04", "a05", "a06", "a07", "a08", "a09", "a10", "a11", "a12"]

/-- A status whose FQDN list is set and whose table-created set contains a host
that is no longer present. -/
def exSyncStatus : Status :=
  { Status.empty with fqdns := some ["h1", "h3"], hostsWithTablesCreated := ["h1", "h2"] }

/-- A status with a non-zero failed-hosts counter, entering a new cycle. -/
def exFailedStatus : Status :=
  { Status.empty with hostsFailedCount := 1, taskID := "task-1" }

/-- A concrete local resource for the sync-loop fixtures. -/
def exChk : KeeperCR := { resourceVersion := "1", status := none }

/-- Environment of an attempt whose first `Get` fails with a store error. -/
def fetchFailedEnv : AttemptEnv :=
  { ctxDone := false
    get1 := GetResult.failed "connection refused"
    writeErr := none
    get2 := GetResult.found exChk }

/-- Environment in which every attempt fetches fine and every write fails. -/
def alwaysWriteFailEnv : Nat → AttemptEnv := fun _ =>
  { ctxDone := false
    get1 := GetResult.found exChk
    writeErr := some "update conflict"
    get2 := GetResult.found exChk }

/-- Environment in which the context is done at every attempt. -/
def ctxDoneEnv : Nat → AttemptEnv := fun _ =>
  { ctxDone := true
    get1 := GetResult.found exChk
    writeErr := none
    get2 := GetResult.found exChk }

/-! ## Helper lemmas -/

theorem take_append_take (xs l : List String) (n : Nat) :
    (xs ++ l.take n).take n = (xs ++ l).take n := by
  rw [List.take_append_eq_append_take, List.take_append_eq_append_take, List.take_take,
    Nat.min_eq_left (Nat.sub_le n xs.length)]

theorem trimActionsNoSync_eq (s : Status) :
    trimActionsNoSync s = { s with actions := s.actions.take maxActions } := by
  unfold trimActionsNoSync
  split
  · rfl
  · next h => rw [List.take_of_length_le (by omega)]

theorem pushTaskIDStartedNoSync_eq (s : Status) :
    pushTaskIDStartedNoSync s
      = { s with taskIDsStarted := (s.taskID :: s.taskIDsStarted).take maxTaskIDs } := by
  unfold pushTaskIDStartedNoSync
  split
  · rfl
  · next h => rw [List.take_of_length_le (by omega)]

theorem pushTaskIDCompletedNoSync_eq (s : Status) :
    pushTaskIDCompletedNoSync s
      = { s with taskIDsCompleted := (s.taskID :: s.taskIDsCompleted).take maxTaskIDs } := by
  unfold pushTaskIDCompletedNoSync
  split
  · rfl
  · next h => rw [List.take_of_length_le (by omega)]

theorem mergeActionsNoSync_eq (s f : Status) :
    mergeActionsNoSync s f
      = { s with actions :=
            (sortReverseStringSlice (mergeStringArrays s.actions f.actions)).take maxActions } := by
  unfold mergeActionsNoSync
  rw [trimActionsNoSync_eq]

theorem sortReverseStringSlice_perm (l : List String) :
    (sortReverseStringSlice l).Perm l :=
  List.perm_insertionSort _ l

theorem sortReverseStringSlice_sorted (l : List String) :
    List.Sorted (fun a b : String => b ≤ a) (sortReverseStringSlice l) :=
  List.sorted_insertionSort _ l

theorem mem_mergeStringArrays (x : String) (a b : List String) :
    x ∈ mergeStringArrays a b ↔ x ∈ a ∨ x ∈ b := by
  unfold mergeStringArrays
  rw [List.mem_dedup, List.mem_append]

theorem nodup_mergeStringArrays (a b : List String) :
    (mergeStringArrays a b).Nodup :=
  List.nodup_dedup _

theorem pushAction_actions (s : Status) (a : String) :
    (s.pushAction a).actions = (a :: s.actions).take maxActions := by
  unfold Status.pushAction
  rw [trimActionsNoSync_eq]

theorem pushActions_actions_eq (as : List String) :
    ∀ s : Status, s.actions.length ≤ maxActions →
      (pushActions s as).actions = (as.reverse ++ s.actions).take maxActions := by
  induction as with
  | nil =>
      intro s h
      simpa [pushActions] using (List.take_of_length_le h).symm
  | cons a as ih =>
      intro s h
      have h1 : (s.pushAction a).actions.length ≤ maxActions := by
        rw [pushAction_actions]
        exact List.length_take_le _ _
      calc (pushActions s (a :: as)).actions
          = (pushActions (s.pushAction a) as).actions := rfl
        _ = (as.reverse ++ (s.pushAction a).actions).take maxActions := ih _ h1
        _ = (as.reverse ++ (a :: s.actions).take maxActions).take maxActions := by
              rw [pushAction_actions]
        _ = (as.reverse ++ (a :: s.actions)).take maxActions := take_append_take _ _ _
        _ = ((a :: as).reverse ++ s.actions).take maxActions := by
              rw [List.reverse_cons, List.append_assoc, List.singleton_append]

theorem doUpdateCRStatus_fst (opts : UpdateStatusOptions) (chk : KeeperCR) (e : AttemptEnv) :
    (doUpdateCRStatus opts chk e).fst = attemptOutcome e := by
  rcases e with ⟨cd, g1, w, g2⟩
  cases cd
  · cases g1 with
    | failed e => rfl
    | found cur =>
        cases w with
        | some werr => rfl
        | none =>
            cases g2 with
            | failed e => rfl
            | found cur2 =>
                by_cases h : chk.resourceVersion ≠ cur2.resourceVersion <;>
                  simp [doUpdateCRStatus, attemptOutcome, h]
  · rfl

theorem statusUpdateLoop_calls_sleeps (opts : UpdateStatusOptions) (env : Nat → AttemptEnv) :
    ∀ (r attempt calls sleeps : Nat) (chk : KeeperCR),
      (statusUpdateLoop opts env chk attempt r calls sleeps).fst.calls ≤ calls + r + 1 ∧
      (statusUpdateLoop opts env chk attempt r calls sleeps).fst.sleeps + calls + 1
        = sleeps + (statusUpdateLoop opts env chk attempt r calls sleeps).fst.calls := by
  intro r
  induction r with
  | zero =>
      intro attempt calls sleeps chk
      rw [statusUpdateLoop]
      rcases he : doUpdateCRStatus opts chk (env attempt) with ⟨o, chk'⟩
      cases o <;> refine ⟨?_, ?_⟩ <;> dsimp only <;> omega
  | succ r ih =>
      intro attempt calls sleeps chk
      rw [statusUpdateLoop]
      rcases he : doUpdateCRStatus opts chk (env attempt) with ⟨o, chk'⟩
      cases o with
      | ok => refine ⟨?_, ?_⟩ <;> dsimp only <;> omega
      | panicked => refine ⟨?_, ?_⟩ <;> dsimp only <;> omega
      | err e =>
          dsimp only
          obtain ⟨iha, ihb⟩ := ih (attempt + 1) (calls + 1) (sleeps + 1) chk'
          exact ⟨by omega, by omega⟩

theorem statusUpdateLoop_exhaust (opts : UpdateStatusOptions) (env : Nat → AttemptEnv) :
    ∀ (r attempt calls sleeps : Nat) (chk : KeeperCR),
      (∀ k, attempt ≤ k → k ≤ attempt + r → (attemptOutcome (env k)).isErr = true) →
      (statusUpdateLoop opts env chk attempt r calls sleeps).fst
        = ⟨attemptOutcome (env (attempt + r)), calls + r + 1, sleeps + r⟩ := by
  intro r
  induction r with
  | zero =>
      intro attempt calls sleeps chk h
      have hne := h attempt (Nat.le_refl _) (Nat.le_add_right _ _)
      rw [← doUpdateCRStatus_fst opts chk (env attempt)] at hne
      rw [statusUpdateLoop]
      rcases he : doUpdateCRStatus opts chk (env attempt) with ⟨o, chk'⟩
      have ho : attemptOutcome (env attempt) = o := by
        rw [← doUpdateCRStatus_fst opts chk (env attempt), he]
      rw [he] at hne
      cases o with
      | ok => simp [Outcome.isErr] at hne
      | panicked => simp [Outcome.isErr] at hne
      | err e =>
          dsimp only
          simp only [Nat.add_zero]
          rw [ho]
  | succ r ih =>
      intro attempt calls sleeps chk h
      have hne := h attempt (Nat.le_refl _) (Nat.le_add_right _ _)
      rw [← doUpdateCRStatus_fst opts chk (env attempt)] at hne
      rw [statusUpdateLoop]
      rcases he : doUpdateCRStatus opts chk (env attempt) with ⟨o, chk'⟩
      rw [he] at hne
      cases o with
      | ok => simp [Outcome.isErr] at hne
      | panicked => simp [Outcome.isErr] at hne
      | err e =>
          dsimp only
          have hrec := ih (attempt + 1) (calls + 1) (sleeps + 1) chk'
            (fun k h1 h2 => h k (by omega) (by omega))
          have h1 : attempt + 1 + r = attempt + (r + 1) := by omega
          have h2 : calls + 1 + r + 1 = calls + (r + 1) + 1 := by omega
          have h3 : sleeps + 1 + r = sleeps + (r + 1) := by omega
          rw [hrec, h1, h2, h3]

theorem statusUpdateLoop_ok_at (opts : UpdateStatusOptions) (env : Nat → AttemptEnv) :
    ∀ (r attempt calls sleeps : Nat) (chk : KeeperCR) (k : Nat),
      attempt ≤ k → k ≤ attempt + r →
      (∀ j, attempt ≤ j → j < k → (attemptOutcome (env j)).isErr = true) →
      attemptOutcome (env k) = Outcome.ok →
      (statusUpdateLoop opts env chk attempt r calls sleeps).fst.outcome = Outcome.ok := by
  intro r
  induction r with
  | zero =>
      intro attempt calls sleeps chk k hk1 hk2 _ hok
      have hkeq : k = attempt := by omega
      subst hkeq
      unfold statusUpdateLoop
      rcases he : doUpdateCRStatus opts chk (env k) with ⟨o, chk'⟩
      have ho : o = Outcome.ok := by
        rw [← hok, ← doUpdateCRStatus_fst opts chk (env k), he]
      subst ho
      rfl
  | succ r ih =>
      intro attempt calls sleeps chk k hk1 hk2 herr hok
      unfold statusUpdateLoop
      rcases he : doUpdateCRStatus opts chk (env attempt) with ⟨o, chk'⟩
      by_cases hkeq : k = attempt
      · subst hkeq
        have ho : o = Outcome.ok := by
          rw [← hok, ← doUpdateCRStatus_fst opts chk (env k), he]
        subst ho
        rfl
      · have hlt : attempt < k := by omega
        have hne := herr attempt (Nat.le_refl _) hlt
        rw [← doUpdateCRStatus_fst opts chk (env attempt), he] at hne
        cases o with
        | ok => simp [Outcome.isErr] at hne
        | panicked => simp [Outcome.isErr] at hne
        | err e =>
            exact ih (attempt + 1) (calls + 1) (sleeps + 1) chk' k (by omega) (by omega)
              (fun j h1 h2 => herr j (by omega) h2) hok

/-! ## Claim theorems -/

/-- C1 (code-bug evaluation): the claim says a failed fetch either succeeds
silently (when absence is tolerated) or surfaces the fetch error; in the code
the type assertion `cur := _cur.(*ClickHouseKeeperInstallation)` runs before
the `err != nil` check, so a failed `Get` leaves `_cur` a nil interface and the
call panics — under both settings of `TolerateAbsence` — and the whole
`StatusUpdate` call aborts on its first attempt. -/
theorem doUpdateCRStatus_fetch_failure_panics :
    (doUpdateCRStatus { tolerateAbsence := true } exChk fetchFailedEnv).fst
      = Outcome.panicked ∧
    (doUpdateCRStatus { tolerateAbsence := false } exChk fetchFailedEnv).fst
      = Outcome.panicked ∧
    (statusUpdate { tolerateAbsence := true } false (fun _ => fetchFailedEnv) exChk).fst
      = ⟨Outcome.panicked, 1, 0⟩ :=
  ⟨rfl, rfl, rfl⟩

/-- C2 (amended): for every store behaviour, a `StatusUpdate` call whose
context is live at entry makes at most 61 `doUpdateCRStatus` attempts (the
`attempt > 60` guard grants one final, non-retried attempt after 60 retries),
sleeps exactly once between consecutive attempts (sleeps = attempts - 1), and
when every attempt fails it returns the error of the last (61st) attempt. -/
theorem statusUpdate_retry_protocol (opts : UpdateStatusOptions) (env : Nat → AttemptEnv)
    (chk : KeeperCR) :
    (statusUpdate opts false env chk).fst.calls ≤ 61 ∧
    (statusUpdate opts false env chk).fst.sleeps + 1
      = (statusUpdate opts false env chk).fst.calls ∧
    ((∀ k, 1 ≤ k → k ≤ 61 → (attemptOutcome (env k)).isErr = true) →
      (statusUpdate opts false env chk).fst = ⟨attemptOutcome (env 61), 61, 60⟩) := by
  have hcs := statusUpdateLoop_calls_sleeps opts env 60 1 0 0 chk
  refine ⟨?_, ?_, ?_⟩
  · have h1 := hcs.1
    show (statusUpdateLoop opts env chk 1 60 0 0).fst.calls ≤ 61
    omega
  · have h2 := hcs.2
    show (statusUpdateLoop opts env chk 1 60 0 0).fst.sleeps + 1
      = (statusUpdateLoop opts env chk 1 60 0 0).fst.calls
    omega
  · intro h
    have he := statusUpdateLoop_exhaust opts env 60 1 0 0 chk
      (fun k hk1 hk2 => h k hk1 (by omega))
    show (statusUpdateLoop opts env chk 1 60 0 0).fst = ⟨attemptOutcome (env 61), 61, 60⟩
    rw [he]

/-- Witness for C2's amended theorem at a concrete always-failing store. -/
theorem statusUpdate_retry_protocol_witness :
    (statusUpdate {} false alwaysWriteFailEnv exChk).fst
      = ⟨attemptOutcome (alwaysWriteFailEnv 61), 61, 60⟩ :=
  (statusUpdate_retry_protocol {} alwaysWriteFailEnv exChk).2.2 (fun _ _ _ => rfl)

/-- C2 counterexample: against a store whose writes always fail, the inner
get-merge-update step is attempted 61 times, not at most 60 as claimed. -/
theorem statusUpdate_attempts_exceed_sixty :
    ¬ ((statusUpdate {} false alwaysWriteFailEnv exChk).fst.calls ≤ 60) := by
  decide

/-- C8: a `StatusUpdate` invocation whose context is already done at entry
returns success immediately with zero store attempts and zero sleeps; the
done-flag is re-checked at the start of each retry iteration (inside
`doUpdateCRStatus`) and an attempt that observes it returns success, so a run
whose earlier attempts all failed short-circuits to overall success at the
first cancelled attempt. -/
theorem statusUpdate_cancellation (opts : UpdateStatusOptions) (env : Nat → AttemptEnv)
    (chk : KeeperCR) (k : Nat) :
    statusUpdate opts true env chk = (⟨Outcome.ok, 0, 0⟩, chk) ∧
    ((env k).ctxDone = true → attemptOutcome (env k) = Outcome.ok) ∧
    (1 ≤ k → k ≤ 61 →
      (∀ j, 1 ≤ j → j < k → (attemptOutcome (env j)).isErr = true) →
      (env k).ctxDone = true →
      (statusUpdate opts false env chk).fst.outcome = Outcome.ok) := by
  refine ⟨rfl, ?_, ?_⟩
  · intro h
    simp [attemptOutcome, h]
  · intro hk1 hk2 herr hdone
    show (statusUpdateLoop opts env chk 1 60 0 0).fst.outcome = Outcome.ok
    exact statusUpdateLoop_ok_at opts env 60 1 0 0 chk k hk1 (by omega) herr
      (by simp [attemptOutcome, hdone])

/-- Witness for C8 at a concrete environment whose context is done. -/
theorem statusUpdate_cancellation_witness :
    statusUpdate {} true ctxDoneEnv exChk = (⟨Outcome.ok, 0, 0⟩, exChk) ∧
    (statusUpdate {} false ctxDoneEnv exChk).fst.outcome = Outcome.ok := by
  have h := statusUpdate_cancellation {} ctxDoneEnv exChk 1
  exact ⟨h.1, h.2.2 (Nat.le_refl 1) (by omega)
    (fun j h1 h2 => absurd h2 (Nat.not_lt.mpr h1)) rfl⟩

/-- C3: for every sequence of `PushAction` calls on a status whose history
respects the cap, the resulting history is the pushed actions newest-first
(matching call order) followed by the previous entries, truncated to 10 —
each push prepends and trims, silently dropping the oldest — and its length
never exceeds 10. -/
theorem pushAction_cap_and_newest_first (s : Status) (as : List String)
    (h : s.actions.length ≤ maxActions) :
    (pushActions s as).actions = (as.reverse ++ s.actions).take maxActions ∧
    (pushActions s as).actions.length ≤ maxActions := by
  refine ⟨pushActions_actions_eq as s h, ?_⟩
  rw [pushActions_actions_eq as s h]
  exact List.length_take_le _ _

/-- Witness for C3: twelve pushes onto an empty status. -/
theorem pushAction_cap_and_newest_first_witness :
    (pushActions Status.empty exActions12).actions
      = (exActions12.reverse ++ Status.empty.actions).take maxActions ∧
    (pushActions Status.empty exActions12).actions.length ≤ maxActions :=
  pushAction_cap_and_newest_first Status.empty exActions12 (by decide)

/-- C4: `CopyFrom` with only the Errors switch set leaves every non-error
field of the destination unchanged (the whole result is the destination with
only `Error`/`Errors` replaced), sets the error field from the source, and
makes the error history the duplicate-collapsed union of both histories sorted
reverse-lexicographically (descending), with no cap applied at merge time
(nothing is truncated: the length equals the merged union's length). -/
theorem copyFrom_errors_only_spec (s f : Status) :
    s.copyFrom f { errors := true }
      = { s with
          error := f.error,
          errors := sortReverseStringSlice (mergeStringArrays s.errors f.errors) } ∧
    (∀ x, x ∈ (s.copyFrom f { errors := true }).errors ↔ x ∈ s.errors ∨ x ∈ f.errors) ∧
    List.Sorted (fun a b : String => b ≤ a) (s.copyFrom f { errors := true }).errors ∧
    (s.copyFrom f { errors := true }).errors.Nodup ∧
    (s.copyFrom f { errors := true }).errors.length
      = (mergeStringArrays s.errors f.errors).length := by
  refine ⟨rfl, ?_, ?_, ?_, ?_⟩
  · intro x
    exact (sortReverseStringSlice_perm _).mem_iff.trans (mem_mergeStringArrays x _ _)
  · exact sortReverseStringSlice_sorted _
  · exact (sortReverseStringSlice_perm _).nodup_iff.mpr (nodup_mergeStringArrays _ _)
  · exact (sortReverseStringSlice_perm _).length_eq

/-- Witness for C4 at concrete statuses. -/
theorem copyFrom_errors_only_spec_witness :
    (Status.empty.copyFrom exSyncStatus { errors := true }).errors.Nodup ∧
    ("h9" ∈ (Status.empty.copyFrom exSyncStatus { errors := true }).errors
      ↔ "h9" ∈ Status.empty.errors ∨ "h9" ∈ exSyncStatus.errors) :=
  ⟨(copyFrom_errors_only_spec Status.empty exSyncStatus).2.2.2.1,
   (copyFrom_errors_only_spec Status.empty exSyncStatus).2.1 "h9"⟩

/-- C5: `SyncHostTablesCreated` is a no-op while the FQDN list is unset, and
with the FQDN list set it makes the table-created set exactly the intersection
of its previous contents with the FQDN list. -/
theorem syncHostTablesCreated_spec (s : Status) :
    (s.fqdns = none → s.syncHostTablesCreated = s) ∧
    (∀ fq, s.fqdns = some fq →
      s.syncHostTablesCreated.hostsWithTablesCreated
          = intersectStringArrays s.hostsWithTablesCreated fq ∧
      ∀ x, (x ∈ s.syncHostTablesCreated.hostsWithTablesCreated
          ↔ x ∈ s.hostsWithTablesCreated ∧ x ∈ fq)) := by
  constructor
  · intro h
    simp [Status.syncHostTablesCreated, h]
  · intro fq h
    refine ⟨by simp [Status.syncHostTablesCreated, h], ?_⟩
    intro x
    simp [Status.syncHostTablesCreated, h, intersectStringArrays, List.mem_filter,
      List.elem_iff]

/-- Witness for C5 at a concrete status with FQDNs set. -/
theorem syncHostTablesCreated_spec_witness :
    exSyncStatus.syncHostTablesCreated.hostsWithTablesCreated
      = intersectStringArrays exSyncStatus.hostsWithTablesCreated ["h1", "h3"] :=
  ((syncHostTablesCreated_spec exSyncStatus).2 ["h1", "h3"] rfl).1

/-- C6 counterexample: `ReconcileStart` does not reset the failed-hosts
counter, and sets the to-delete counter to its argument rather than zero, so
the claim that all per-cycle host counters (including failed and to-delete)
are reset to zero fails on a status with a non-zero failed counter. -/
theorem reconcileStart_reset_claim_false :
    ¬ ((exFailedStatus.reconcileStart 3).hostsFailedCount = 0 ∧
       (exFailedStatus.reconcileStart 3).hostsDeleteCount = 0) := by
  decide

/-- C6 (amended): `ReconcileStart` resets the updated/added/unchanged/
completed/deleted host counters to zero, sets the to-delete counter to its
argument, leaves the failed counter unchanged, and pushes one new entry (the
current task id) onto the started-task-id history while leaving the completed
history untouched; a following `ReconcileComplete` pushes exactly one new
entry onto the completed-task-id history, leaving the started history as it
was after start — so the pair leaves exactly one new entry in each history, in
that order. -/
theorem reconcileStart_then_complete_histories (s : Status) (d : Int) :
    (s.reconcileStart d).hostsUpdatedCount = 0 ∧
    (s.reconcileStart d).hostsAddedCount = 0 ∧
    (s.reconcileStart d).hostsUnchangedCount = 0 ∧
    (s.reconcileStart d).hostsCompletedCount = 0 ∧
    (s.reconcileStart d).hostsDeletedCount = 0 ∧
    (s.reconcileStart d).hostsDeleteCount = d ∧
    (s.reconcileStart d).hostsFailedCount = s.hostsFailedCount ∧
    (s.reconcileStart d).status = StatusInProgress ∧
    (s.reconcileStart d).taskIDsStarted
      = (s.taskID :: s.taskIDsStarted).take maxTaskIDs ∧
    (s.reconcileStart d).taskIDsCompleted = s.taskIDsCompleted ∧
    ((s.reconcileStart d).reconcileComplete).taskIDsCompleted
      = (s.taskID :: s.taskIDsCompleted).take maxTaskIDs ∧
    ((s.reconcileStart d).reconcileComplete).taskIDsStarted
      = (s.reconcileStart d).taskIDsStarted := by
  have hs : s.reconcileStart d
      = { s with
          status := StatusInProgress
          hostsUpdatedCount := 0
          hostsAddedCount := 0
          hostsUnchangedCount := 0
          hostsCompletedCount := 0
          hostsDeletedCount := 0
          hostsDeleteCount := d
          taskIDsStarted := (s.taskID :: s.taskIDsStarted).take maxTaskIDs } := by
    unfold Status.reconcileStart
    rw [pushTaskIDStartedNoSync_eq]
  have hc : ∀ t : Status, t.reconcileComplete
      = { t with
          status := StatusCompleted
          action := ""
          taskIDsCompleted := (t.taskID :: t.taskIDsCompleted).take maxTaskIDs } := by
    intro t
    unfold Status.reconcileComplete
    rw [pushTaskIDCompletedNoSync_eq]
  rw [hs, hc]
  exact ⟨rfl, rfl, rfl, rfl, rfl, rfl, rfl, rfl, rfl, rfl, rfl, rfl⟩

/-- C7: `CopyFrom` with the Actions switch set copies the source's action
field, makes the destination's action history the duplicate-collapsed union of
both histories sorted descending and capped at 10, and replaces the
table-created set and the template-provenance list wholesale from the source
(an empty source list yields an empty destination list); the resulting history
never exceeds 10 entries, is sorted descending, and contains only entries from
one of the two histories. -/
theorem copyFrom_actions_only_spec (s f : Status) :
    s.copyFrom f { actions := true }
      = { s with
          action := f.action,
          actions :=
            (sortReverseStringSlice (mergeStringArrays s.actions f.actions)).take maxActions,
          hostsWithTablesCreated := f.hostsWithTablesCreated,
          usedTemplates := f.usedTemplates } ∧
    (s.copyFrom f { actions := true }).actions.length ≤ maxActions ∧
    List.Sorted (fun a b : String => b ≤ a) (s.copyFrom f { actions := true }).actions ∧
    (∀ x, x ∈ (s.copyFrom f { actions := true }).actions → x ∈ s.actions ∨ x ∈ f.actions) := by
  have hr : s.copyFrom f { actions := true }
      = { s with
          action := f.action,
          actions :=
            (sortReverseStringSlice (mergeStringArrays s.actions f.actions)).take maxActions,
          hostsWithTablesCreated := f.hostsWithTablesCreated,
          usedTemplates := f.usedTemplates } := by
    show ({ mergeActionsNoSync { s with action := f.action } f with
            hostsWithTablesCreated := f.hostsWithTablesCreated,
            usedTemplates := f.usedTemplates } : Status) = _
    rw [mergeActionsNoSync_eq]
  refine ⟨hr, ?_, ?_, ?_⟩
  · rw [hr]
    exact List.length_take_le _ _
  · rw [hr]
    exact List.Pairwise.sublist (List.take_sublist _ _) (sortReverseStringSlice_sorted _)
  · intro x hx
    rw [hr] at hx
    have hx2 : x ∈ sortReverseStringSlice (mergeStringArrays s.actions f.actions) :=
      (List.take_sublist _ _).subset hx
    exact (mem_mergeStringArrays x _ _).mp ((sortReverseStringSlice_perm _).mem_iff.mp hx2)

/-- Witness for C7 at concrete statuses. -/
theorem copyFrom_actions_only_spec_witness :
    (Status.empty.copyFrom exSyncStatus { actions := true }).actions.length ≤ maxActions ∧
    (Status.empty.copyFrom exSyncStatus { actions := true }).usedTemplates
      = exSyncStatus.usedTemplates :=
  ⟨(copyFrom_actions_only_spec Status.empty exSyncStatus).2.1,
   by rw [(copyFrom_actions_only_spec Status.empty exSyncStatus).1]⟩

/-- C9: invoking any `Status` mutator on a nil receiver is a no-op, and any
accessor on a nil receiver returns the zero value of its result type (empty
string, zero integer, empty sequence, nil pointer, false). -/
theorem nil_receiver_safety :
    (∀ p, Ptr.fill none p = none) ∧
    (∀ e, Ptr.setError none e = none) ∧
    (∀ e, Ptr.setAndPushError none e = none) ∧
    (∀ h, Ptr.pushHostTablesCreated none h = none) ∧
    Ptr.syncHostTablesCreated none = none ∧
    (∀ t, Ptr.pushUsedTemplate none t = none) ∧
    (∀ a, Ptr.setAction none a = none) ∧
    (∀ a, Ptr.pushAction none a = none) ∧
    (∀ e, Ptr.pushError none e = none) ∧
    (∀ ips, Ptr.setPodIPs none ips = none) ∧
    Ptr.hostDeleted none = none ∧
    Ptr.hostUpdated none = none ∧
    Ptr.hostAdded none = none ∧
    Ptr.hostUnchanged none = none ∧
    Ptr.hostFailed none = none ∧
    Ptr.hostCompleted none = none ∧
    (∀ d, Ptr.reconcileStart none d = none) ∧
    Ptr.reconcileComplete none = none ∧
    Ptr.reconcileAbort none = none ∧
    Ptr.deleteStart none = none ∧
    (∀ f opts, Ptr.copyFrom none f opts = none) ∧
    Ptr.clearNormalizedCR none = none ∧
    Ptr.setNormalizedCompletedFromCurrentNormalized none = none ∧
    Ptr.getUsedTemplatesCount none = 0 ∧
    Ptr.getCHOpVersion none = "" ∧
    Ptr.getCHOpCommit none = "" ∧
    Ptr.getCHOpDate none = "" ∧
    Ptr.getCHOpIP none = "" ∧
    Ptr.getClustersCount none = 0 ∧
    Ptr.getShardsCount none = 0 ∧
    Ptr.getReplicasCount none = 0 ∧
    Ptr.getHostsCount none = 0 ∧
    Ptr.getStatus none = "" ∧
    Ptr.getTaskID none = "" ∧
    Ptr.getTaskIDsStarted none = [] ∧
    Ptr.getTaskIDsCompleted none = [] ∧
    Ptr.getAction none = "" ∧
    Ptr.getActions none = [] ∧
    Ptr.getError none = "" ∧
    Ptr.getErrors none = [] ∧
    Ptr.getHostsUpdatedCount none = 0 ∧
    Ptr.getHostsAddedCount none = 0 ∧
    Ptr.getHostsUnchangedCount none = 0 ∧
    Ptr.getHostsFailedCount none = 0 ∧
    Ptr.getHostsCompletedCount none = 0 ∧
    Ptr.getHostsDeletedCount none = 0 ∧
    Ptr.getHostsDeleteCount none = 0 ∧
    Ptr.getPods none = [] ∧
    Ptr.getPodIPs none = [] ∧
    Ptr.getFQDNs none = [] ∧
    Ptr.getEndpoint none = "" ∧
    Ptr.getNormalizedCR none = none ∧
    Ptr.getNormalizedCRCompleted none = none ∧
    Ptr.getHostsWithTablesCreated none = [] ∧
    Ptr.hasNormalizedCR none = false ∧
    Ptr.hasNormalizedCRCompleted none = false := by
  repeat' apply And.intro
  all_goals first
    | exact fun _ _ => rfl
    | exact fun _ => rfl
    | rfl

/-- C10: `ReconcileComplete` sets the phase to Completed, clears the free-text
current-action field, and prepends the current task id onto the (capped)
completed-task-id history, leaving every other field unchanged;
`ReconcileAbort` does the same with phase Aborted. -/
theorem reconcileComplete_abort_effects (s : Status) :
    s.reconcileComplete
      = { s with
          status := StatusCompleted,
          action := "",
          taskIDsCompleted := (s.taskID :: s.taskIDsCompleted).take maxTaskIDs } ∧
    s.reconcileAbort
      = { s with
          status := StatusAborted,
          action := "",
          taskIDsCompleted := (s.taskID :: s.taskIDsCompleted).take maxTaskIDs } := by
  constructor
  · unfold Status.reconcileComplete
    rw [pushTaskIDCompletedNoSync_eq]
  · unfold Status.reconcileAbort
    rw [pushTaskIDCompletedNoSync_eq]

end ClickHouseOperator
